import Mathlib

/-
Verification of src/Xit/XTConstants.h (PrivateFork/Xit).

The header declares three C enums and two extern NSString* error-domain
identifiers.  C enum semantics: the first enumerator without an explicit
value is 0, and each subsequent enumerator without an explicit value is
the previous enumerator's value plus one.  Each typedef enum becomes a
closed inductive type here, with a rawValue function giving the C
enumerator values.
-/

namespace Xit

/-- The XTRefType enum of XTConstants.h: classification of a Git
reference.  Enumerators in declaration order. -/
inductive XTRefType where
  | branch
  | activeBranch
  | remoteBranch
  | tag
  | remote
  | unknown
deriving DecidableEq, Repr, Fintype

/-- C enumerator values of XTRefType: no explicit initializers in the
source, so values are 0, 1, 2, ... in declaration order. -/
def XTRefType.rawValue : XTRefType → Nat
  | .branch => 0
  | .activeBranch => 1
  | .remoteBranch => 2
  | .tag => 3
  | .remote => 4
  | .unknown => 5

/-- The enumerators of XTRefType in declaration order. -/
def XTRefType.allValues : List XTRefType :=
  [.branch, .activeBranch, .remoteBranch, .tag, .remote, .unknown]

/-- The XTSideBarRootItems enum of XTConstants.h: the four sidebar root
group indices.  Enumerators in declaration order. -/
inductive XTSideBarRootItems where
  | branchesGroupIndex
  | remotesGroupIndex
  | tagsGroupIndex
  | stashesGroupIndex
deriving DecidableEq, Repr, Fintype

/-- C enumerator values of XTSideBarRootItems: no explicit initializers
in the source, so values are 0, 1, 2, 3 in declaration order. -/
def XTSideBarRootItems.rawValue : XTSideBarRootItems → Nat
  | .branchesGroupIndex => 0
  | .remotesGroupIndex => 1
  | .tagsGroupIndex => 2
  | .stashesGroupIndex => 3

/-- The enumerators of XTSideBarRootItems in declaration order. -/
def XTSideBarRootItems.allValues : List XTSideBarRootItems :=
  [.branchesGroupIndex, .remotesGroupIndex, .tagsGroupIndex, .stashesGroupIndex]

/-- The XTError enum of XTConstants.h: its sole enumerator is
XTErrorWriteLock, with the explicit initializer 1. -/
inductive XTError where
  | writeLock
deriving DecidableEq, Repr, Fintype

/-- C enumerator value of XTError: XTErrorWriteLock = 1 explicitly in
the source. -/
def XTError.rawValue : XTError → Nat
  | .writeLock => 1

/-- Modelled from the spec: the header only declares the two extern
error-domain identifiers XTErrorDomainXit and XTErrorDomainGit; their
defining translation unit is not under src/.  The spec describes them as
two opaque, distinct, process-wide constant tokens — one identifying the
application (Xit) domain, one the underlying Git library domain — so
they are modelled as the two constructors of a closed identifier type. -/
inductive ErrorDomain where
  | xit
  | git
deriving DecidableEq, Repr, Fintype

/-- The application error-domain identifier (declared extern in the
header; value modelled from the spec as an opaque token). -/
def XTErrorDomainXit : ErrorDomain := .xit

/-- The underlying-Git-library error-domain identifier (declared extern
in the header; value modelled from the spec as an opaque token). -/
def XTErrorDomainGit : ErrorDomain := .git

/-- Modelled from the spec: a read of XTErrorDomainXit at a point in the
process lifetime.  The spec says the identifier is defined once at
process start and never mutated afterwards, so a read at any instant
yields the constant. -/
def readDomainXit (_t : Nat) : ErrorDomain := XTErrorDomainXit

/-- Modelled from the spec: a read of XTErrorDomainGit at a point in the
process lifetime; same immutability contract as for the Xit domain. -/
def readDomainGit (_t : Nat) : ErrorDomain := XTErrorDomainGit

/-- An error representation: a domain identifier paired with a numeric
code, as described by the spec's error-handling design. -/
structure TaggedError where
  domain : ErrorDomain
  code : Nat
deriving DecidableEq, Repr

/-- Modelled from the spec: constructing (tagging) an application
write-lock error.  No error-construction code is under src/; the spec
says such an error carries the application domain identifier paired with
the XTErrorWriteLock code. -/
def makeWriteLockError : TaggedError :=
  { domain := XTErrorDomainXit, code := XTError.rawValue .writeLock }

/-- C1: XTRefType has exactly the six values Branch, ActiveBranch,
RemoteBranch, Tag, Remote, Unknown; they are pairwise distinct, each
maps to a unique underlying ordinal, and Unknown is distinct from the
other five. -/
theorem refType_six_distinct_unique_ordinals :
    XTRefType.allValues =
      [.branch, .activeBranch, .remoteBranch, .tag, .remote, .unknown] ∧
    XTRefType.allValues.length = 6 ∧
    (∀ r : XTRefType, r ∈ XTRefType.allValues) ∧
    XTRefType.allValues.Nodup ∧
    (XTRefType.allValues.map XTRefType.rawValue).Nodup ∧
    XTRefType.branch ≠ XTRefType.unknown ∧
    XTRefType.activeBranch ≠ XTRefType.unknown ∧
    XTRefType.remoteBranch ≠ XTRefType.unknown ∧
    XTRefType.tag ≠ XTRefType.unknown ∧
    XTRefType.remote ≠ XTRefType.unknown := by
  decide

/-- C2: XTSideBarRootItems has exactly the four pairwise-distinct values
Branches, Remotes, Tags, Stashes with ordinals 0, 1, 2, 3 in that fixed
order; the set is closed, with no fifth group. -/
theorem sideBarRootItems_four_ordered :
    XTSideBarRootItems.allValues =
      [.branchesGroupIndex, .remotesGroupIndex, .tagsGroupIndex,
       .stashesGroupIndex] ∧
    XTSideBarRootItems.allValues.length = 4 ∧
    (∀ s : XTSideBarRootItems, s ∈ XTSideBarRootItems.allValues) ∧
    XTSideBarRootItems.allValues.Nodup ∧
    XTSideBarRootItems.allValues.map XTSideBarRootItems.rawValue =
      [0, 1, 2, 3] := by
  decide

/-- C3: XTErrorWriteLock equals 1, and WriteLock is the only XTError
value in the taxonomy. -/
theorem xtError_writeLock_only :
    XTError.rawValue .writeLock = 1 ∧
    (∀ v : XTError, v = XTError.writeLock) := by
  decide

/-- C4: the two error-domain identifiers XTErrorDomainXit and
XTErrorDomainGit are distinct from each other. -/
theorem errorDomains_distinct : XTErrorDomainXit ≠ XTErrorDomainGit := by
  decide

/-- C5: no XTError value equals 0: every defined error code is
nonzero. -/
theorem xtError_nonzero : ∀ v : XTError, XTError.rawValue v ≠ 0 := by
  decide

/-- C6: the two error-domain identifier constants are never mutated
after process initialization: a read of either identifier at any instant
of the process lifetime yields the same value as a read at any other
instant. -/
theorem errorDomains_stable :
    ∀ t t' : Nat,
      readDomainXit t = readDomainXit t' ∧
      readDomainGit t = readDomainGit t' := by
  intro t t'
  exact ⟨rfl, rfl⟩

/-- C7: tagging an error as an application write-lock error yields
exactly the pair (XTErrorDomainXit, XTErrorWriteLock) = (Xit domain, 1),
and no other (domain, code) combination is produced for that
condition. -/
theorem writeLockError_pair :
    makeWriteLockError.domain = XTErrorDomainXit ∧
    makeWriteLockError.code = XTError.rawValue .writeLock ∧
    makeWriteLockError.code = 1 ∧
    (∀ e : TaggedError, e = makeWriteLockError →
      e.domain = XTErrorDomainXit ∧ e.code = 1) := by
  refine ⟨rfl, rfl, rfl, ?_⟩
  intro e he
  subst he
  exact ⟨rfl, rfl⟩

/-- C7 witness: the write-lock error itself satisfies the uniqueness
conjunct at the concrete input makeWriteLockError. -/
theorem writeLockError_pair_witness :
    makeWriteLockError.domain = XTErrorDomainXit ∧ makeWriteLockError.code = 1 :=
  writeLockError_pair.2.2.2 makeWriteLockError rfl

/-- C8: the six XTRefType ordinals are the consecutive integers 0
through 5 in declaration order, and every value other than Unknown has
an ordinal strictly less than Unknown's. -/
theorem refType_ordinals_consecutive :
    XTRefType.allValues.map XTRefType.rawValue = [0, 1, 2, 3, 4, 5] ∧
    (∀ r : XTRefType, r ≠ XTRefType.unknown →
      XTRefType.rawValue r < XTRefType.rawValue XTRefType.unknown) := by
  decide

/-- C8 witness: at the concrete value Branch, the hypothesis Branch ≠
Unknown holds and the ordinal of Branch is below that of Unknown. -/
theorem refType_ordinals_consecutive_witness :
    XTRefType.rawValue XTRefType.branch <
      XTRefType.rawValue XTRefType.unknown :=
  refType_ordinals_consecutive.2 XTRefType.branch (by decide)

/-- C9: ordinal values are not unique across the enumerations:
XTRefTypeBranch and XTBranchesGroupIndex both have underlying integer 0,
so a raw integer alone does not identify its taxonomy. -/
theorem ordinals_collide_across_enums :
    XTRefType.rawValue XTRefType.branch =
      XTSideBarRootItems.rawValue XTSideBarRootItems.branchesGroupIndex ∧
    XTRefType.rawValue XTRefType.branch = 0 ∧
    ∃ (r : XTRefType) (s : XTSideBarRootItems),
      XTRefType.rawValue r = XTSideBarRootItems.rawValue s := by
  exact ⟨rfl, rfl, XTRefType.branch, XTSideBarRootItems.branchesGroupIndex, rfl⟩

end Xit
